import Mathlib

/-!
Verification development for `riemann-mysql.c` (exoscale/riemann-mysql),
a MySQL replication check agent that reports health events to a Riemann
collector.  The definitions below are a shallow embedding of the C source:
pure computations become Lean functions, the interactions with libmysql
and the network are abstracted into explicit environment values describing
the outcome of each external call, and C locals that the source leaves
uninitialized are modelled as `Option` values (`none` = indeterminate).
-/

namespace RiemannMysql

/-! ## Constants (`#define` block, riemann-mysql.c lines 36-52) -/

def DEFAULT_INTERVAL : Int := 30

def DEFAULT_DELAY : ℚ := 2

def MYSQL_SLAVE_IO_IDX : Nat := 10

def MYSQL_SLAVE_SQL_IDX : Nat := 11

def MYSQL_SECONDS_BEHIND : Nat := 32

def MYSQL_MIN_FIELDS : Nat := 33

def MAXLEN : Nat := 1024

/-- `enum state` (lines 70-75). Kept numeric because the value is used to
index the `states` array in `mysql_gather`. -/
def S_OK : Nat := 0

def S_WARNING : Nat := 1

def S_CRITICAL : Nat := 2

def S_UNKNOWN : Nat := 3

/-- `char *states[4] = { "ok", "warning", "critical", "unknown" };` (line 159) -/
def states : List String := ["ok", "warning", "critical", "unknown"]

/-- `desclen = sizeof(description) - 1` (line 165): `description` is
`char[MAXLEN]`, so `desclen = 1023`. -/
def desclen : Nat := MAXLEN - 1

/-! ## libc models -/

/-- C `isspace` in the POSIX locale. -/
def isSpaceC (c : Char) : Bool :=
  c = ' ' || c = '\t' || c = '\n' || c = '\x0b' || c = '\x0c' || c = '\r'

/-- Accumulate a decimal digit run, stopping at the first non-digit
(the common core of `atoi` / `atoll` / integer part of `atof`). -/
def digitsAcc : List Char → Int → Int
  | [], acc => acc
  | c :: rest, acc =>
      if c.isDigit then digitsAcc rest (acc * 10 + ((c.toNat : Int) - 48))
      else acc

/-- Leading digit run of a character list. -/
def digitRun (cs : List Char) : List Char := cs.takeWhile Char.isDigit

/-- C `atoll`: skip whitespace, optional sign, decimal digit run
(overflow left mathematical: the fields parsed here are small counters). -/
def atoll (s : String) : Int :=
  match s.data.dropWhile isSpaceC with
  | '-' :: rest => -(digitsAcc (digitRun rest) 0)
  | '+' :: rest => digitsAcc (digitRun rest) 0
  | cs => digitsAcc (digitRun cs) 0

/-- C `atoi`, same recognized syntax as `atoll` at `int` width
(the configured values are small, width is immaterial here). -/
def atoi (s : String) : Int := atoll s

/-- C `atof` restricted to the plain decimal forms used by the config file:
optional whitespace, optional sign, digits, optional fractional digits.
Doubles are modelled exactly as rationals. -/
def atof (s : String) : ℚ :=
  let cs := s.data.dropWhile isSpaceC
  let signNeg : Bool := match cs with | '-' :: _ => true | _ => false
  let cs' : List Char := match cs with
    | '-' :: rest => rest
    | '+' :: rest => rest
    | other => other
  let ip := digitRun cs'
  let rest := cs'.dropWhile Char.isDigit
  let fp : List Char := match rest with
    | '.' :: r => digitRun r
    | _ => []
  let ipVal : ℚ := (digitsAcc ip 0 : Int)
  let fpVal : ℚ := ((digitsAcc fp 0 : Int) : ℚ) / ((10 : ℚ) ^ fp.length)
  (if signNeg then -1 else 1) * (ipVal + fpVal)

/-- C double-to-int conversion: truncation toward zero. -/
def dtoi (q : ℚ) : Int := q.num.tdiv (q.den : Int)

/-- C `tolower` in the POSIX locale (ASCII). -/
def toLowerC (c : Char) : Char :=
  if 'A' ≤ c && c ≤ 'Z' then Char.ofNat (c.toNat + 32) else c

/-- `strcasecmp(a, b) == 0`: equality after per-character `tolower`. -/
def strcaseeq (a b : String) : Bool :=
  a.data.map toLowerC = b.data.map toLowerC

/-- Truncation of a string to its first `n` characters, modelling the
bounded copies `strncpy(dst, src, n)` into a zeroed buffer and
`snprintf(dst, n + 1, ...)`. -/
def strTrunc (s : String) (n : Nat) : String := String.mk (s.data.take n)

/-! ## `mysql_gather` (lines 149-242)

The interaction with libmysql is abstracted as a `QueryResult` describing
which of the four outcomes the `show slave status` round trip had:
`mysql_real_query` failing, `mysql_store_result` returning NULL,
`mysql_fetch_row` returning NULL, or a fetched row.  A fetched `MYSQL_ROW`
is a list of nullable strings; `mysql_num_fields(res)` is its length. -/

inductive QueryResult where
  | queryError (err : String)
  | storeError (err : String)
  | noRow (err : String)
  | gotRow (row : List (Option String))
  deriving DecidableEq, Repr

/-- `row[i]` for a `MYSQL_ROW`. -/
def rowField (row : List (Option String)) (i : Nat) : Option String :=
  row.getD i none

/-- `row[i] != NULL && strcasecmp(row[i], "yes") == 0` (lines 198-201). -/
def isYes (f : Option String) : Bool :=
  match f with
  | none => false
  | some s => strcaseeq s "yes"

/-- Lines 212-219, kept in the source's sequential form: if both threads
run, state becomes `S_OK`; otherwise the `!sql` check may assign
`S_WARNING` and the `!io` check, evaluated after it, may overwrite with
`S_CRITICAL`.  `prior` is the value `state` holds on entry (`none` models
the uninitialized local on the ordinary path, `some S_UNKNOWN` on the
fields-missing fall-through path). -/
def evalStateSeq (prior : Option Nat) (ioRunning sqlRunning : Bool) : Option Nat :=
  if ioRunning && sqlRunning then some S_OK
  else
    let s1 := if !sqlRunning then some S_WARNING else prior
    if !ioRunning then some S_CRITICAL else s1

/-- `snprintf(description, desclen, "slave io: %s, slave sql: %s", ...)`
(lines 210-211): at most `desclen - 1` characters are stored. -/
def descFormat (ioRunning sqlRunning : Bool) : String :=
  strTrunc ("slave io: " ++ (if ioRunning then "running" else "stopped") ++
    ", slave sql: " ++ (if sqlRunning then "running" else "stopped")) (desclen - 1)

/-- Result of one `mysql_gather` call.  `state` is the numeric `enum state`
value used to index `states` (out-of-range would surface here as a value
≥ 4, via the `getD` default below).  `hasMetric` and `metric` are `Option`s
because the C locals `has_metric` and `metric` are declared without an
initializer: `none` records that the variable was never assigned on the
path taken, i.e. that the later `if (has_metric)` read (line 238) is of an
indeterminate value.  `usedResultAfterFree` is a ghost flag: `true` exactly
when the path freed the result set (line 195) and then went on to read
`row` and free `res` again (lines 198-222). -/
structure GatherResult where
  state : Nat
  description : String
  hasMetric : Option Bool
  metric : Option Int
  usedResultAfterFree : Bool
  deriving DecidableEq, Repr

/-- Shallow embedding of `mysql_gather` (lines 149-242).  The four match
arms are the four outcomes of the query round trip.  In the `gotRow` arm,
note two faithfully reproduced quirks of the source: the
`mysql_num_fields(res) < MYSQL_MIN_FIELDS` branch (lines 191-196) sets
state/description and frees the result but has no `goto out`, so control
falls through into the field evaluation; and `state` enters lines 212-219
carrying either that `S_UNKNOWN` or its uninitialized value. -/
def mysql_gather (q : QueryResult) : GatherResult :=
  match q with
  | .queryError err =>
      { state := S_UNKNOWN, description := strTrunc err desclen,
        hasMetric := none, metric := none, usedResultAfterFree := false }
  | .storeError err =>
      { state := S_CRITICAL, description := strTrunc err desclen,
        hasMetric := none, metric := none, usedResultAfterFree := false }
  | .noRow err =>
      { state := S_UNKNOWN, description := strTrunc err desclen,
        hasMetric := none, metric := none, usedResultAfterFree := false }
  | .gotRow row =>
      let fieldsMissing := row.length < MYSQL_MIN_FIELDS
      let prior : Option Nat := if fieldsMissing then some S_UNKNOWN else none
      let ioRunning := isYes (rowField row MYSQL_SLAVE_IO_IDX)
      let sqlRunning := isYes (rowField row MYSQL_SLAVE_SQL_IDX)
      let hm := (rowField row MYSQL_SECONDS_BEHIND).isSome
      let m := (rowField row MYSQL_SECONDS_BEHIND).map atoll
      { state := (evalStateSeq prior ioRunning sqlRunning).getD 4,
        description := descFormat ioRunning sqlRunning,
        hasMetric := some hm, metric := m,
        usedResultAfterFree := fieldsMissing }

/-- `states[state]` at event construction (line 232), as a guarded list
lookup: `none` would mean an out-of-bounds read. -/
def eventStateString (q : QueryResult) : Option String :=
  states[(mysql_gather q).state]?

/-! ## `mysql_get_handle` (lines 110-144)

The handle keeps the `enum status` (`true` = `S_UP`) and whether `db` is a
live connection (`db != NULL`).  The libmysql calls are abstracted into a
`MysqlEnv` giving the outcome each would have: `mysql_ping` on the current
connection, `mysql_init`, and `mysql_real_connect`. -/

structure MysqlHandler where
  statusUp : Bool
  dbOpen : Bool
  deriving DecidableEq, Repr

structure MysqlEnv where
  pingOk : Bool
  initOk : Bool
  connectOk : Bool
  deriving DecidableEq, Repr

/-- The `S_DOWN` branch of `mysql_get_handle` (lines 125-143): allocate a
fresh connection, connect, and mark the handle `S_UP`; on either failure
log, leave `db` NULL and return `-1`. -/
def mysql_connect_down (env : MysqlEnv) (hdl : MysqlHandler) : Int × MysqlHandler :=
  if !env.initOk then (-1, { hdl with dbOpen := false })
  else if !env.connectOk then (-1, { hdl with dbOpen := false })
  else (0, { statusUp := true, dbOpen := true })

/-- `mysql_get_handle` with explicit recursion fuel (the C function calls
itself on line 120 after tearing the handle down).  `none` models
non-termination within the given depth; the `Nat` in the result counts how
many times the `S_DOWN` (fresh connect) branch ran. -/
def mysql_get_handleF : Nat → MysqlEnv → MysqlHandler → Option (Int × MysqlHandler × Nat)
  | 0, _, _ => none
  | fuel + 1, env, hdl =>
      if hdl.statusUp then
        if env.pingOk then some (0, hdl, 0)
        else
          (mysql_get_handleF fuel env { statusUp := false, dbOpen := false }).map
            (fun r => (r.1, r.2.1, r.2.2))
      else
        let r := mysql_connect_down env hdl
        some (r.1, r.2, 1)

/-! ## Configuration directives and the main loop (lines 252-472)

Only the parts of `main` the claims are about are embedded: the
`interval` / `delay` directive branches of the config reader (lines
384-387; the other directives touch neither variable), the per-event ttl
(line 437), and the shape of one iteration of the `while (1)` loop
(lines 425-469).  Line 387 is kept exactly as written in the source:
the `"delay"` directive assigns `atof(val)` to `interval`. -/

structure MainCfg where
  interval : Int
  delay : ℚ
  deriving DecidableEq, Repr

/-- `int interval = 30; double delay = DEFAULT_DELAY;` (lines 259-260). -/
def initialCfg : MainCfg := { interval := 30, delay := DEFAULT_DELAY }

/-- One `key = value` directive, restricted to the two branches that
write `interval` or `delay` (lines 384-387).  Note the source's line 387:
`interval = atof(val);` inside the `"delay"` branch (the double value is
truncated by the implicit conversion to `int`); the `delay` variable is
never assigned from the configuration. -/
def applyDirective (c : MainCfg) (key val : String) : MainCfg :=
  if strcaseeq key "interval" then { c with interval := atoi val }
  else if strcaseeq key "delay" then { c with interval := dtoi (atof val) }
  else c

/-- The config-reading loop, over an already-split list of directives. -/
def processConfig : MainCfg → List (String × String) → MainCfg
  | c, [] => c
  | c, (k, v) :: rest => processConfig (applyDirective c k v) rest

/-- `riemann_event_set_one(ev, TTL, (double)(interval + delay))`
(line 437). -/
def eventTtl (c : MainCfg) : ℚ := (c.interval : ℚ) + c.delay

/-- External outcomes one loop iteration can observe: whether
`mysql_get_handle` returned `0`, the query outcome, whether
`riemann_client_connect` returned `0`, and `end_ts - start_ts`. -/
structure CycleEnv where
  handleOk : Bool
  query : QueryResult
  connectOk : Bool
  elapsed : Int
  deriving DecidableEq, Repr

/-- Observable result of one iteration of the main loop (lines 425-469).
`gathered = none` means `mysql_gather` was never called this cycle (and
hence no event was built); `ttl` and `tags` are the values attached to the
built event; `delivered` is whether `riemann_client_send_message_oneshot`
was reached; `sleptFor` is the argument of `sleep` (0 = no sleep). -/
structure CycleResult where
  gathered : Option GatherResult
  ttl : Option ℚ
  tags : List String
  delivered : Bool
  sleptFor : Int
  deriving DecidableEq, Repr

/-- One iteration of the `while (1)` loop.  On `mysql_get_handle`
failure (lines 430-434) the body logs, sleeps the full `interval` and
`continue`s, never reaching gather, build or send.  Otherwise it gathers,
sets the ttl, adds the tags, attempts one delivery iff the riemann connect
succeeded, and sleeps `interval - (end_ts - start_ts)` when positive. -/
def main_cycle (cfg : MainCfg) (tags : List String) (env : CycleEnv) : CycleResult :=
  if !env.handleOk then
    { gathered := none, ttl := none, tags := [], delivered := false,
      sleptFor := cfg.interval }
  else
    let g := mysql_gather env.query
    let waitfor := cfg.interval - env.elapsed
    { gathered := some g, ttl := some (eventTtl cfg), tags := tags,
      delivered := env.connectOk,
      sleptFor := if waitfor > 0 then waitfor else 0 }

/-! ## Concrete rows used as witnesses -/

/-- A fully healthy 33-field row: every field `"Yes"`. -/
def yesRow : List (Option String) := List.replicate 33 (some "Yes")

/-- A 33-field row whose only defect is a NULL seconds-behind field. -/
def nullMetricRow : List (Option String) :=
  List.replicate 32 (some "Yes") ++ [none]

/-! ## Claims -/

/-- C1: for every valid status row (at least 33 fields), the gathered state
is `S_OK` iff fields 10 and 11 are both present and case-insensitively
equal `"yes"`; if the SQL thread is not running the state is `S_WARNING`
(when the IO thread runs); if the IO thread is not running the state is
`S_CRITICAL`; and when both are stopped the IO check, evaluated second,
overrides the SQL check, so the final state is `S_CRITICAL`. -/
theorem C1_state_lattice (row : List (Option String))
    (h : MYSQL_MIN_FIELDS ≤ row.length) :
    ((mysql_gather (.gotRow row)).state = S_OK ↔
      (isYes (rowField row MYSQL_SLAVE_IO_IDX) = true ∧
       isYes (rowField row MYSQL_SLAVE_SQL_IDX) = true))
    ∧ (isYes (rowField row MYSQL_SLAVE_IO_IDX) = true →
       isYes (rowField row MYSQL_SLAVE_SQL_IDX) = false →
       (mysql_gather (.gotRow row)).state = S_WARNING)
    ∧ (isYes (rowField row MYSQL_SLAVE_IO_IDX) = false →
       (mysql_gather (.gotRow row)).state = S_CRITICAL)
    ∧ (isYes (rowField row MYSQL_SLAVE_IO_IDX) = false →
       isYes (rowField row MYSQL_SLAVE_SQL_IDX) = false →
       (mysql_gather (.gotRow row)).state = S_CRITICAL) := by
  have hfm : ¬ (row.length < MYSQL_MIN_FIELDS) := by omega
  cases hio : isYes (rowField row MYSQL_SLAVE_IO_IDX) <;>
    cases hsql : isYes (rowField row MYSQL_SLAVE_SQL_IDX) <;>
      simp [mysql_gather, evalStateSeq, hio, hsql, hfm,
            S_OK, S_WARNING, S_CRITICAL, S_UNKNOWN]

/-- C1 witness: the state lattice evaluated on the fully healthy row. -/
theorem C1_state_lattice_witness :
    MYSQL_MIN_FIELDS ≤ yesRow.length ∧
    (((mysql_gather (.gotRow yesRow)).state = S_OK ↔
      (isYes (rowField yesRow MYSQL_SLAVE_IO_IDX) = true ∧
       isYes (rowField yesRow MYSQL_SLAVE_SQL_IDX) = true))
    ∧ (isYes (rowField yesRow MYSQL_SLAVE_IO_IDX) = true →
       isYes (rowField yesRow MYSQL_SLAVE_SQL_IDX) = false →
       (mysql_gather (.gotRow yesRow)).state = S_WARNING)
    ∧ (isYes (rowField yesRow MYSQL_SLAVE_IO_IDX) = false →
       (mysql_gather (.gotRow yesRow)).state = S_CRITICAL)
    ∧ (isYes (rowField yesRow MYSQL_SLAVE_IO_IDX) = false →
       isYes (rowField yesRow MYSQL_SLAVE_SQL_IDX) = false →
       (mysql_gather (.gotRow yesRow)).state = S_CRITICAL)) :=
  ⟨by decide, C1_state_lattice yesRow (by decide)⟩

/-- C2 counterexample: the claim maps every failing gather path to
`S_UNKNOWN`, but when `mysql_store_result` returns NULL (line 175) the
source sets `state = S_CRITICAL` (line 177), not `S_UNKNOWN`. -/
theorem C2_store_error_not_unknown :
    (mysql_gather (.storeError "err")).state = S_CRITICAL ∧
    S_CRITICAL ≠ S_UNKNOWN := by decide

/-- C2 (amended): the failing paths that jump to `out` do not crash and
carry the underlying error text in the description, with state
`S_UNKNOWN` for a query-execution failure and for no row returned, but
`S_CRITICAL` for a store-result failure; the fewer-than-minimum-fields
path is settled separately (see C3). -/
theorem C2_failure_paths_amended (err : String) :
    (mysql_gather (.queryError err)).state = S_UNKNOWN ∧
    (mysql_gather (.queryError err)).description = strTrunc err desclen ∧
    (mysql_gather (.storeError err)).state = S_CRITICAL ∧
    (mysql_gather (.storeError err)).description = strTrunc err desclen ∧
    (mysql_gather (.noRow err)).state = S_UNKNOWN ∧
    (mysql_gather (.noRow err)).description = strTrunc err desclen := by
  simp [mysql_gather]

/-- C3 (code bug, flagged by the spec itself): on a fetched row with fewer
than 33 fields the source frees the result (line 195) but has no `goto
out`, so it falls through into the field evaluation: the row is read after
the free, the `S_UNKNOWN` state and `"fields missing"` description are
overwritten, and the result is freed a second time (line 222).  Evaluated
on a 32-field all-NULL row. -/
theorem C3_fields_missing_fall_through :
    (mysql_gather (.gotRow (List.replicate 32 none))).usedResultAfterFree = true ∧
    (mysql_gather (.gotRow (List.replicate 32 none))).state = S_CRITICAL ∧
    (mysql_gather (.gotRow (List.replicate 32 none))).state ≠ S_UNKNOWN ∧
    (mysql_gather (.gotRow (List.replicate 32 none))).description ≠ "fields missing" ∧
    (mysql_gather (.gotRow (List.replicate 32 none))).description =
      "slave io: stopped, slave sql: stopped" := by decide

/-- C4 (code bug): the `"delay"` config directive assigns `atof(val)` to
`interval` (line 387) and `delay` keeps its default `2.0`, so for the
config `interval = 30`, `delay = 5` the emitted ttl is `5 + 2 = 7`, not
the claimed `interval + delay = 35`. -/
theorem C4_delay_directive_ttl_bug :
    eventTtl (processConfig initialCfg [("interval", "30"), ("delay", "5")]) = 7 ∧
    eventTtl (processConfig initialCfg [("interval", "30"), ("delay", "5")]) ≠ 30 + 5 := by
  have ha : atof "5" = 5 := by
    simp +decide [atof, digitRun, digitsAcc, isSpaceC]
  have hd : dtoi (atof "5") = 5 := by
    rw [ha]; simp [dtoi]
  have hcfg : processConfig initialCfg [("interval", "30"), ("delay", "5")] =
      { interval := 5, delay := DEFAULT_DELAY } := by
    simp +decide [processConfig, applyDirective, initialCfg, hd]
  rw [hcfg]
  constructor <;> norm_num [eventTtl, DEFAULT_DELAY]

/-- C5: on a handle in the UP state whose ping fails, `mysql_get_handle`
tears the handle down (status DOWN, `db = NULL`) and makes exactly one
fresh connect attempt: for every fuel of at least 2 the fueled embedding
returns (it never runs out of fuel, i.e. the self-recursion stops at depth
one) and its result is exactly the DOWN-branch outcome on the torn-down
handle, with a connect-attempt count of 1. -/
theorem C5_ping_failure_single_retry (env : MysqlEnv) (hdl : MysqlHandler)
    (hup : hdl.statusUp = true) (hping : env.pingOk = false)
    (fuel : Nat) (hfuel : 2 ≤ fuel) :
    mysql_get_handleF fuel env hdl =
      some ((mysql_connect_down env { statusUp := false, dbOpen := false }).1,
            (mysql_connect_down env { statusUp := false, dbOpen := false }).2, 1) := by
  obtain ⟨k, rfl⟩ : ∃ k, fuel = k + 2 := ⟨fuel - 2, by omega⟩
  simp [mysql_get_handleF, hup, hping]

/-- C5 witness: an UP handle whose ping fails, with a successful fresh
connect, at fuel 2. -/
theorem C5_ping_failure_single_retry_witness :
    (MysqlHandler.mk true true).statusUp = true ∧
    (MysqlEnv.mk false true true).pingOk = false ∧
    2 ≤ 2 ∧
    mysql_get_handleF 2 (MysqlEnv.mk false true true) (MysqlHandler.mk true true) =
      some ((mysql_connect_down (MysqlEnv.mk false true true)
               { statusUp := false, dbOpen := false }).1,
            (mysql_connect_down (MysqlEnv.mk false true true)
               { statusUp := false, dbOpen := false }).2, 1) :=
  ⟨rfl, rfl, by decide,
   C5_ping_failure_single_retry (MysqlEnv.mk false true true)
     (MysqlHandler.mk true true) rfl rfl 2 (by decide)⟩

/-- C6: in a cycle where `mysql_get_handle` fails, the loop body logs and
`continue`s (lines 430-434): nothing is gathered, no ttl is set, no tags
are added, nothing is delivered, and the loop sleeps the full configured
interval. -/
theorem C6_probe_failure_skips_cycle (cfg : MainCfg) (tagList : List String)
    (env : CycleEnv) (h : env.handleOk = false) :
    (main_cycle cfg tagList env).gathered = none ∧
    (main_cycle cfg tagList env).ttl = none ∧
    (main_cycle cfg tagList env).tags = [] ∧
    (main_cycle cfg tagList env).delivered = false ∧
    (main_cycle cfg tagList env).sleptFor = cfg.interval := by
  simp [main_cycle, h]

/-- C6 witness: a failed probe with the default configuration. -/
theorem C6_probe_failure_skips_cycle_witness :
    (CycleEnv.mk false (.noRow "e") true 0).handleOk = false ∧
    ((main_cycle initialCfg ["prod"] (CycleEnv.mk false (.noRow "e") true 0)).gathered = none ∧
     (main_cycle initialCfg ["prod"] (CycleEnv.mk false (.noRow "e") true 0)).ttl = none ∧
     (main_cycle initialCfg ["prod"] (CycleEnv.mk false (.noRow "e") true 0)).tags = [] ∧
     (main_cycle initialCfg ["prod"] (CycleEnv.mk false (.noRow "e") true 0)).delivered = false ∧
     (main_cycle initialCfg ["prod"] (CycleEnv.mk false (.noRow "e") true 0)).sleptFor =
       initialCfg.interval) :=
  ⟨rfl, C6_probe_failure_skips_cycle initialCfg ["prod"]
          (CycleEnv.mk false (.noRow "e") true 0) rfl⟩

/-- C7: for every valid row, the built event carries a metric iff field 32
is non-NULL, the metric is the integer parse of field 32 when present, and
a row whose only defect is a NULL field 32 still gets its state from the
io/sql rules with the metric absent. -/
theorem C7_metric_presence (row : List (Option String))
    (h : MYSQL_MIN_FIELDS ≤ row.length) :
    ((mysql_gather (.gotRow row)).hasMetric =
       some (rowField row MYSQL_SECONDS_BEHIND).isSome)
    ∧ ((mysql_gather (.gotRow row)).metric =
       (rowField row MYSQL_SECONDS_BEHIND).map atoll)
    ∧ (rowField row MYSQL_SECONDS_BEHIND = none →
        (mysql_gather (.gotRow row)).hasMetric = some false ∧
        (mysql_gather (.gotRow row)).metric = none ∧
        ((mysql_gather (.gotRow row)).state = S_OK ↔
          (isYes (rowField row MYSQL_SLAVE_IO_IDX) = true ∧
           isYes (rowField row MYSQL_SLAVE_SQL_IDX) = true)) ∧
        (isYes (rowField row MYSQL_SLAVE_IO_IDX) = false →
          (mysql_gather (.gotRow row)).state = S_CRITICAL) ∧
        (isYes (rowField row MYSQL_SLAVE_IO_IDX) = true →
         isYes (rowField row MYSQL_SLAVE_SQL_IDX) = false →
          (mysql_gather (.gotRow row)).state = S_WARNING)) := by
  have hfm : ¬ (row.length < MYSQL_MIN_FIELDS) := by omega
  refine ⟨by simp [mysql_gather], by simp [mysql_gather], fun hsb => ?_⟩
  cases hio : isYes (rowField row MYSQL_SLAVE_IO_IDX) <;>
    cases hsql : isYes (rowField row MYSQL_SLAVE_SQL_IDX) <;>
      simp [mysql_gather, evalStateSeq, hio, hsql, hfm, hsb,
            S_OK, S_WARNING, S_CRITICAL, S_UNKNOWN]

/-- C7 witness: the metric rules on a 33-field row with running threads
and a NULL seconds-behind field. -/
theorem C7_metric_presence_witness :
    MYSQL_MIN_FIELDS ≤ nullMetricRow.length ∧
    (((mysql_gather (.gotRow nullMetricRow)).hasMetric =
       some (rowField nullMetricRow MYSQL_SECONDS_BEHIND).isSome)
    ∧ ((mysql_gather (.gotRow nullMetricRow)).metric =
       (rowField nullMetricRow MYSQL_SECONDS_BEHIND).map atoll)
    ∧ (rowField nullMetricRow MYSQL_SECONDS_BEHIND = none →
        (mysql_gather (.gotRow nullMetricRow)).hasMetric = some false ∧
        (mysql_gather (.gotRow nullMetricRow)).metric = none ∧
        ((mysql_gather (.gotRow nullMetricRow)).state = S_OK ↔
          (isYes (rowField nullMetricRow MYSQL_SLAVE_IO_IDX) = true ∧
           isYes (rowField nullMetricRow MYSQL_SLAVE_SQL_IDX) = true)) ∧
        (isYes (rowField nullMetricRow MYSQL_SLAVE_IO_IDX) = false →
          (mysql_gather (.gotRow nullMetricRow)).state = S_CRITICAL) ∧
        (isYes (rowField nullMetricRow MYSQL_SLAVE_IO_IDX) = true →
         isYes (rowField nullMetricRow MYSQL_SLAVE_SQL_IDX) = false →
          (mysql_gather (.gotRow nullMetricRow)).state = S_WARNING))) :=
  ⟨by decide, C7_metric_presence nullMetricRow (by decide)⟩

/-- C8: for every valid row, the event description is exactly
`"slave io: X, slave sql: Y"` with `X`/`Y` being `"running"` when the
respective field is case-insensitively `"yes"` and `"stopped"`
otherwise. -/
theorem C8_description_format (row : List (Option String))
    (_h : MYSQL_MIN_FIELDS ≤ row.length) :
    (mysql_gather (.gotRow row)).description =
      "slave io: " ++
        (if isYes (rowField row MYSQL_SLAVE_IO_IDX) then "running" else "stopped") ++
      ", slave sql: " ++
        (if isYes (rowField row MYSQL_SLAVE_SQL_IDX) then "running" else "stopped") := by
  cases hio : isYes (rowField row MYSQL_SLAVE_IO_IDX) <;>
    cases hsql : isYes (rowField row MYSQL_SLAVE_SQL_IDX) <;>
      simp only [mysql_gather, hio, hsql, if_true, if_false] <;> decide

/-- C8 witness: the fully healthy row yields the literal
`"slave io: running, slave sql: running"`. -/
theorem C8_description_format_witness :
    MYSQL_MIN_FIELDS ≤ yesRow.length ∧
    (mysql_gather (.gotRow yesRow)).description =
      "slave io: running, slave sql: running" := by
  have h := C8_description_format yesRow (by decide)
  exact ⟨by decide, by rw [h]; decide⟩

/-- C9 (code bug): on the three paths that jump to `out` before the row
fields are read, the `has_metric` local is indeed never assigned — but it
is never initialized either, so the embedding records it as `none` at the
point where line 238 branches on it: the C program reads an indeterminate
value there, and nothing guarantees the metric-attach call is skipped. -/
theorem C9_has_metric_uninitialized :
    (mysql_gather (.queryError "err")).hasMetric = none ∧
    (mysql_gather (.storeError "err")).hasMetric = none ∧
    (mysql_gather (.noRow "err")).hasMetric = none ∧
    (mysql_gather (.queryError "err")).metric = none := by decide

/-- C10: on every path through `mysql_gather`, the numeric state used to
index the four-entry `states` array is one of 0..3, the lookup is in
bounds, and the event state string is one of `"ok"`, `"warning"`,
`"critical"`, `"unknown"`. -/
theorem C10_state_index_bounded (q : QueryResult) :
    (mysql_gather q).state < 4 ∧
    ∃ s, eventStateString q = some s ∧
      s ∈ ["ok", "warning", "critical", "unknown"] := by
  cases q with
  | queryError err =>
      refine ⟨?_, "unknown", ?_, by decide⟩ <;>
        simp [mysql_gather, eventStateString, states, S_UNKNOWN]
  | storeError err =>
      refine ⟨?_, "critical", ?_, by decide⟩ <;>
        simp [mysql_gather, eventStateString, states, S_CRITICAL]
  | noRow err =>
      refine ⟨?_, "unknown", ?_, by decide⟩ <;>
        simp [mysql_gather, eventStateString, states, S_UNKNOWN]
  | gotRow row =>
      by_cases hfm : row.length < MYSQL_MIN_FIELDS <;>
      cases hio : isYes (rowField row MYSQL_SLAVE_IO_IDX) <;>
        cases hsql : isYes (rowField row MYSQL_SLAVE_SQL_IDX) <;>
          simp [eventStateString, mysql_gather, evalStateSeq, hio, hsql, hfm, states,
                S_OK, S_WARNING, S_CRITICAL, S_UNKNOWN]

end RiemannMysql
